import Mathlib

/-!
Verification of the training-run orchestration layer of VFIformer (`train.py`).

The Python entry point is shallowly embedded: the observable side effects of
`main`, `init_dist` and `set_random_seed` (RNG seeding, device binding,
start-method configuration, process-group join, directory creation, logger
setup, trainer invocation) are recorded as an explicit event trace over an
explicit process state, and fallible operations return `Except`.
-/

namespace TrainPy

/-- The `--launcher` option: `choices=['none', 'pytorch']`. -/
inductive Launcher where
  | none : Launcher
  | pytorch : Launcher
deriving DecidableEq

/-- The command-line arguments that the orchestration logic inspects
(`argparse` fields of `train.py` that are read before the Trainer hand-off). -/
structure Args where
  random_seed : Int
  name : String
  gpu_ids : String
  launcher : Launcher
  save_folder : String
deriving DecidableEq

/-- The process environment: everything `train.py` reads from outside
(multiprocessing start-method state at entry, `torch.cuda.device_count()`,
`os.environ['RANK']`, the process group's negotiated world size and rank,
the wall-clock timestamp, and the set of filesystem paths that exist). -/
structure World where
  startMethod0 : Option String
  numGpus : Nat
  envRank : Option String
  groupWorldSize : Nat
  groupRank : Int
  timestamp : String
  fs0 : List String
deriving DecidableEq

/-- Observable side effects of the orchestration layer, in program order. -/
inductive Event where
  | parseArgs : Event
  | seed : Int → Event
  | setDevice : Int → Event
  | setStartMethod : String → Event
  | initProcessGroup : String → Event
  | printMsg : String → Event
  | printWorldSize : Nat → Event
  | makedirs : String → Event
  | mkdir : String → Event
  | setupLogger : String → Event
  | printArgs : Event
  | cudnnBenchmark : Event
  | trainerTrain : Event
deriving DecidableEq

/-- Python exceptions that can escape the orchestration code. -/
inductive Err where
  | keyError : String → Err
  | valueError : String → Err
  | runtimeError : String → Err
  | fileNotFoundError : String → Err
  | zeroDivision : Err
deriving DecidableEq

deriving instance DecidableEq for Except

/-- Mutable process state threaded through the embedding: the multiprocessing
start method, the CUDA device bound by `torch.cuda.set_device`, the set of
existing filesystem paths, and the initialized log sink (if any). -/
structure PState where
  startMethod : Option String
  boundDevice : Option Int
  fs : List String
  loggerFile : Option String
deriving DecidableEq

/-- Split a character list at every occurrence of `c`
(Python `str.split(c)`; splitting the empty string yields `['']`). -/
def splitChar (c : Char) : List Char → List (List Char)
  | [] => [[]]
  | x :: xs =>
    match splitChar c xs with
    | [] => [[]]
    | r :: rs => if x = c then [] :: r :: rs else (x :: r) :: rs

/-- Rejoin character-list pieces with separator `c` (inverse of `splitChar`). -/
def joinWith (c : Char) : List (List Char) → List Char
  | [] => []
  | [x] => x
  | x :: y :: xs => x ++ c :: joinWith c (y :: xs)

/-- Strip leading and trailing whitespace (Python `int` ignores it). -/
def trimChars (l : List Char) : List Char :=
  ((l.dropWhile Char.isWhitespace).reverse.dropWhile Char.isWhitespace).reverse

/-- Accumulate decimal digits; `none` on any non-digit character. -/
def digitsToNatAux (acc : Nat) : List Char → Option Nat
  | [] => some acc
  | c :: cs =>
    if c.isDigit then digitsToNatAux (acc * 10 + (c.toNat - 48)) cs else none

/-- A non-empty all-digit character list as a natural number, else `none`. -/
def digitsToNat : List Char → Option Nat
  | [] => none
  | cs => digitsToNatAux 0 cs

/-- Python `int(s)` on a decimal string: optional sign, at least one digit;
`none` models a raised `ValueError` (in particular `int('')` fails). -/
def pyParseInt (s : List Char) : Option Int :=
  match trimChars s with
  | '-' :: rest => (digitsToNat rest).map (fun n => -(n : Int))
  | '+' :: rest => (digitsToNat rest).map (fun n => (n : Int))
  | t => (digitsToNat t).map (fun n => (n : Int))

/-- The device-id loop of `main` (train.py lines 111-116): each token is fed
to `int`, and only non-negative ids are kept, in order. The first unparseable
token aborts the whole parse (`ValueError`). -/
def parseGpuIdsAux : List (List Char) → Option (List Int)
  | [] => some []
  | t :: ts =>
    match pyParseInt t with
    | none => none
    | some id =>
      match parseGpuIdsAux ts with
      | none => none
      | some rest => if 0 ≤ id then some (id :: rest) else some rest

/-- `args.gpu_ids.split(',')` followed by the filtering loop of `main`. -/
def parseGpuIds (s : String) : Option (List Int) :=
  parseGpuIdsAux (splitChar ',' s.toList)

/-- Does path `p` exist in the filesystem model (`os.path.exists`)? -/
def fsContains (fs : List String) (p : String) : Bool :=
  match fs with
  | [] => false
  | q :: qs => if q = p then true else fsContains qs p

/-- All slash-separated prefixes of a path, shortest first
(the directories `os.makedirs` creates on the way to `p`). -/
def pathAncestors (p : String) : List String :=
  let parts := splitChar '/' p.toList
  (List.range parts.length).map (fun i => String.mk (joinWith '/' (parts.take (i + 1))))

/-- Effect of `os.makedirs p` on the filesystem model: the leaf and every
missing intermediate directory now exist. -/
def makedirsAdd (fs : List String) (p : String) : List String :=
  p :: (pathAncestors p ++ fs)

/-- Does the path start with a slash (absolute, for `os.path.join`)? -/
def headIsSlash (s : String) : Bool :=
  match s.toList with
  | [] => false
  | c :: _ => c = '/'

/-- Does the path end with a slash? -/
def lastIsSlash (s : String) : Bool :=
  match s.toList.reverse with
  | [] => false
  | c :: _ => c = '/'

/-- `os.path.join a b` for the cases arising here. -/
def pathJoin (a b : String) : String :=
  if headIsSlash b then b
  else if a = "" then b
  else if lastIsSlash a then a ++ b
  else a ++ "/" ++ b

/-- `mp.set_start_method(m)`: Python raises `RuntimeError` if the start
method was already fixed, else it records `m`. -/
def set_start_method (m : String) (st : PState) : Except Err (PState × List Event) :=
  match st.startMethod with
  | Option.none => Except.ok ({ st with startMethod := some m }, [Event.setStartMethod m])
  | Option.some _ => Except.error (Err.runtimeError "context has already been set")

/-- Lines 20-21 of train.py:
`if mp.get_start_method(allow_none=True) != 'spawn': mp.set_start_method('spawn')`. -/
def startMethodStep (st : PState) : Except Err (PState × List Event) :=
  if st.startMethod = some "spawn" then Except.ok (st, [])
  else set_start_method "spawn" st

/-- `init_dist` (train.py lines 18-25): ensure the spawn start method, read
`os.environ['RANK']` (KeyError when absent, ValueError when unparseable),
bind the CUDA device to `rank % num_gpus` (ZeroDivisionError when no device
is visible), and join the process group. -/
def init_dist (backend : String) (w : World) (st : PState) : Except Err (PState × List Event) :=
  match startMethodStep st with
  | Except.error e => Except.error e
  | Except.ok (st1, e1) =>
    match w.envRank with
    | Option.none => Except.error (Err.keyError "RANK")
    | Option.some rstr =>
      match pyParseInt rstr.toList with
      | Option.none => Except.error (Err.valueError rstr)
      | Option.some rank =>
        if w.numGpus = 0 then Except.error Err.zeroDivision
        else
          Except.ok
            ({ st1 with boundDevice := some (rank % (w.numGpus : Int)) },
             e1 ++ [Event.setDevice (rank % (w.numGpus : Int)), Event.initProcessGroup backend])

/-- `set_random_seed` (train.py lines 27-31): seeds every RNG source; a pure
trace event in this embedding. -/
def set_random_seed (s : Int) : List Event :=
  [Event.seed s]

/-- The rank-gated Run Layout Manager (train.py lines 137-142): on the
coordinating process (`rank <= 0`) create the two output directories when
missing (`os.makedirs` for `vis`, bare `os.mkdir` for `snapshot`, which
needs the parent `save` to exist) and initialize the log sink; on every
other rank do nothing. -/
def runLayout (rank : Int) (vis snap save log : String) (st : PState) :
    Except Err (PState × List Event) :=
  if rank ≤ 0 then
    let p1 : PState × List Event :=
      if fsContains st.fs vis then (st, [])
      else ({ st with fs := makedirsAdd st.fs vis }, [Event.makedirs vis])
    let st1 := p1.1
    let e1 := p1.2
    let p2 : Except Err (PState × List Event) :=
      if fsContains st1.fs snap then Except.ok (st1, [])
      else if fsContains st1.fs save then
        Except.ok ({ st1 with fs := snap :: st1.fs }, [Event.mkdir snap])
      else Except.error (Err.fileNotFoundError snap)
    match p2 with
    | Except.error e => Except.error e
    | Except.ok (st2, e2) =>
      Except.ok ({ st2 with loggerFile := some log }, e1 ++ e2 ++ [Event.setupLogger log])
  else Except.ok (st, [])

/-- Result of a completed run of `main`: the resolved configuration fields
the spec talks about, the final process state, and the event trace. -/
structure MainOut where
  dist : Bool
  rank : Int
  world_size : Option Nat
  gpu_ids : List Int
  save_folder : String
  vis_save_dir : String
  snapshot_save_dir : String
  log_file_path : String
  st : PState
  events : List Event
deriving DecidableEq

/-- Process state at entry of `main`: the externally observed start-method
state and filesystem, no device bound, no log sink. -/
def initialState (w : World) : PState :=
  { startMethod := w.startMethod0, boundDevice := none, fs := w.fs0, loggerFile := none }

/-- Lines 117-118 of train.py: `if len(args.gpu_ids) > 0:
torch.cuda.set_device(args.gpu_ids[0])`. -/
def deviceBindStep (gids : List Int) (st : PState) : PState × List Event :=
  match gids with
  | [] => (st, [])
  | g :: _ => ({ st with boundDevice := some g }, [Event.setDevice g])

/-- Lines 121-130 of train.py: the distributed-training settings block,
yielding `(args.dist, args.rank, args.world_size)` next to the updated state
and the block's events. -/
def distStep (a : Args) (w : World) (st : PState) :
    Except Err (Bool × Int × Option Nat × PState × List Event) :=
  match a.launcher with
  | Launcher.none =>
    Except.ok (false, -1, none, st, [Event.printMsg "Disabled distributed training."])
  | Launcher.pytorch =>
    match init_dist "nccl" w st with
    | Except.error e => Except.error e
    | Except.ok (st2, evd) =>
      Except.ok (true, w.groupRank, some w.groupWorldSize, st2,
                 evd ++ [Event.printWorldSize w.groupWorldSize])

/-- `main` (train.py lines 33-150): parse the arguments, seed, parse and bind
the device list, resolve the distributed settings (calling `init_dist` for
the `pytorch` launcher), derive the run layout paths, run the rank-gated
layout step, and hand off to the Trainer. -/
def main (a : Args) (w : World) : Except Err MainOut :=
  let ev0 : List Event := Event.parseArgs :: set_random_seed a.random_seed
  match parseGpuIds a.gpu_ids with
  | Option.none => Except.error (Err.valueError a.gpu_ids)
  | Option.some gids =>
    let p1 := deviceBindStep gids (initialState w)
    match distStep a w p1.1 with
    | Except.error e => Except.error e
    | Except.ok (d, rk, ws, st2, ev2) =>
      let save := pathJoin a.save_folder a.name
      let vis := pathJoin save "vis"
      let snap := pathJoin save "snapshot"
      let log := save ++ "/" ++ w.timestamp ++ ".log"
      match runLayout rk vis snap save log st2 with
      | Except.error e => Except.error e
      | Except.ok (st3, ev3) =>
        Except.ok
          { dist := d, rank := rk, world_size := ws, gpu_ids := gids,
            save_folder := save, vis_save_dir := vis, snapshot_save_dir := snap,
            log_file_path := log, st := st3,
            events := ev0 ++ p1.2 ++ ev2 ++ ev3 ++
              [Event.printArgs, Event.cudnnBenchmark, Event.trainerTrain] }

example : "0,2".toList = ['0', ',', '2'] := rfl
example : parseGpuIds "0,2" = some [0, 2] := by decide
example : parseGpuIds "-1" = some [] := by decide
example : parseGpuIds "" = none := by decide
example : parseGpuIds "0,-1,2" = some [0, 2] := by decide
example : pathJoin "w" "n" = "w/n" := by decide

/-- Orchestration phase of an event, following the program text of `main`:
argument resolution (0), seeding (1), device/distribution setup (2),
layout creation (3), trailing prints/cudnn flag (4), driver invocation (5). -/
def phase : Event → Nat
  | Event.parseArgs => 0
  | Event.seed _ => 1
  | Event.setDevice _ => 2
  | Event.setStartMethod _ => 2
  | Event.initProcessGroup _ => 2
  | Event.printMsg _ => 2
  | Event.printWorldSize _ => 2
  | Event.makedirs _ => 3
  | Event.mkdir _ => 3
  | Event.setupLogger _ => 3
  | Event.printArgs => 4
  | Event.cudnnBenchmark => 4
  | Event.trainerTrain => 5

/-- Ordering of events by orchestration phase. -/
def phaseLE (x y : Event) : Prop :=
  phase x ≤ phase y

instance : DecidableRel phaseLE :=
  fun x y => Nat.decLe (phase x) (phase y)

/-- Is this the configuration-resolution event (`parser.parse_args()`)? -/
def isResolveEv : Event → Bool
  | Event.parseArgs => true
  | _ => false

/-- Is this the seeding event (`set_random_seed`)? -/
def isSeedEv : Event → Bool
  | Event.seed _ => true
  | _ => false

/-- Is this a device/distribution-setup action (`torch.cuda.set_device`,
`mp.set_start_method`, `dist.init_process_group`)? -/
def isDeviceEv : Event → Bool
  | Event.setDevice _ => true
  | Event.setStartMethod _ => true
  | Event.initProcessGroup _ => true
  | _ => false

/-- Is this a layout-creation action (`os.makedirs`, `os.mkdir`,
`setup_logger`)? -/
def isLayoutEv : Event → Bool
  | Event.makedirs _ => true
  | Event.mkdir _ => true
  | Event.setupLogger _ => true
  | _ => false

/-- Is this the driver invocation (`trainer.train()`)? -/
def isDriverEv : Event → Bool
  | Event.trainerTrain => true
  | _ => false

/-- Is this a directory-creation action? -/
def isCreateEv : Event → Bool
  | Event.makedirs _ => true
  | Event.mkdir _ => true
  | _ => false

/-- Is this a `set_start_method` call? -/
def isSetStartMethodEv : Event → Bool
  | Event.setStartMethod _ => true
  | _ => false

/-- `allBefore p q t` holds when every `p`-event of the trace `t` occurs
strictly before every `q`-event. -/
def allBefore (p q : Event → Bool) : List Event → Bool
  | [] => true
  | e :: ts => (!q e || (!p e && ts.all (fun x => !p x))) && allBefore p q ts

/-- C1 as stated by the spec: on a trace, seeding strictly precedes
configuration resolution, which precedes device/distribution setup, which
precedes layout creation, which precedes driver invocation. -/
def claimC1Order (t : List Event) : Bool :=
  allBefore isSeedEv isResolveEv t && allBefore isResolveEv isDeviceEv t &&
  allBefore isDeviceEv isLayoutEv t && allBefore isLayoutEv isDriverEv t

/-- The order the code actually implements: configuration resolution first,
then seeding, then device/distribution setup, then layout creation, then
driver invocation. -/
def amendedC1Order (t : List Event) : Bool :=
  allBefore isResolveEv isSeedEv t && allBefore isSeedEv isDeviceEv t &&
  allBefore isDeviceEv isLayoutEv t && allBefore isLayoutEv isDriverEv t

/-- The event at position `i` of a trace (0-based). -/
def nthEvent : List Event → Nat → Option Event
  | [], _ => none
  | e :: _, 0 => some e
  | _ :: t, n + 1 => nthEvent t n

/-- Event trace of a run of `main` (empty when `main` raised). -/
def eventsOf (r : Except Err MainOut) : List Event :=
  match r with
  | Except.ok o => o.events
  | Except.error _ => []

/-- A concrete single-process argument vector. -/
def args0 : Args :=
  { random_seed := 0, name := "n", gpu_ids := "0", launcher := Launcher.none,
    save_folder := "w" }

/-- A concrete environment: fresh start method, two visible devices,
launcher-provided rank 3, empty filesystem. -/
def world0 : World :=
  { startMethod0 := none, numGpus := 2, envRank := some "3", groupWorldSize := 4,
    groupRank := 3, timestamp := "t", fs0 := [] }

lemma fsContains_cons_self (fs : List String) (p : String) : fsContains (p :: fs) p = true := by
  simp [fsContains]

lemma fsContains_cons_of (fs : List String) (p q : String) (h : fsContains fs p = true) :
    fsContains (q :: fs) p = true := by
  by_cases hq : q = p <;> simp [fsContains, hq, h]

lemma fsContains_append_of (l fs : List String) (p : String) (h : fsContains fs p = true) :
    fsContains (l ++ fs) p = true := by
  induction l with
  | nil => simpa using h
  | cons x xs ih => exact fsContains_cons_of _ _ _ ih

lemma startMethodStep_ok (st st1 : PState) (e1 : List Event)
    (h : startMethodStep st = Except.ok (st1, e1)) :
    (e1 = [] ∨ e1 = [Event.setStartMethod "spawn"]) ∧ st1.startMethod = some "spawn" ∧
      st1.boundDevice = st.boundDevice ∧ st1.fs = st.fs ∧ st1.loggerFile = st.loggerFile := by
  unfold startMethodStep set_start_method at h
  split at h
  · rename_i hsp
    obtain ⟨rfl, rfl⟩ : st = st1 ∧ [] = e1 := by
      simpa [Prod.ext_iff] using h
    exact ⟨Or.inl rfl, hsp, rfl, rfl, rfl⟩
  · split at h
    · obtain ⟨rfl, rfl⟩ : { st with startMethod := some "spawn" } = st1 ∧
          [Event.setStartMethod "spawn"] = e1 := by
        simpa [Prod.ext_iff] using h
      exact ⟨Or.inr rfl, rfl, rfl, rfl, rfl⟩
    · simp at h

lemma startMethodStep_spawn (st : PState) (h : st.startMethod = some "spawn") :
    startMethodStep st = Except.ok (st, []) := by
  simp [startMethodStep, h]

lemma startMethodStep_unset (st : PState) (h : st.startMethod = none) :
    startMethodStep st =
      Except.ok ({ st with startMethod := some "spawn" }, [Event.setStartMethod "spawn"]) := by
  simp [startMethodStep, set_start_method, h]

lemma startMethodStep_mismatch (st : PState) (m : String) (h : st.startMethod = some m)
    (hm : m ≠ "spawn") :
    startMethodStep st = Except.error (Err.runtimeError "context has already been set") := by
  simp [startMethodStep, set_start_method, h, hm]

lemma init_dist_eq_sm_err (b : String) (w : World) (st : PState) (e : Err)
    (hsm : startMethodStep st = Except.error e) :
    init_dist b w st = Except.error e := by
  unfold init_dist
  rw [hsm]

lemma init_dist_eq_rank_missing (b : String) (w : World) (st st1 : PState) (e1 : List Event)
    (hsm : startMethodStep st = Except.ok (st1, e1)) (henv : w.envRank = none) :
    init_dist b w st = Except.error (Err.keyError "RANK") := by
  unfold init_dist
  rw [hsm, henv]

lemma init_dist_eq_rank_bad (b : String) (w : World) (st st1 : PState) (e1 : List Event)
    (rstr : String) (hsm : startMethodStep st = Except.ok (st1, e1))
    (henv : w.envRank = some rstr) (hp : pyParseInt rstr.toList = none) :
    init_dist b w st = Except.error (Err.valueError rstr) := by
  unfold init_dist
  simp only [hsm, henv, hp]

lemma init_dist_eq_nogpu (b : String) (w : World) (st st1 : PState) (e1 : List Event)
    (rstr : String) (r : Int) (hsm : startMethodStep st = Except.ok (st1, e1))
    (henv : w.envRank = some rstr) (hp : pyParseInt rstr.toList = some r)
    (hg : w.numGpus = 0) :
    init_dist b w st = Except.error Err.zeroDivision := by
  unfold init_dist
  simp only [hsm, henv, hp]
  rw [if_pos hg]

lemma init_dist_eq_ok (b : String) (w : World) (st st1 : PState) (e1 : List Event)
    (rstr : String) (r : Int) (hsm : startMethodStep st = Except.ok (st1, e1))
    (henv : w.envRank = some rstr) (hp : pyParseInt rstr.toList = some r)
    (hg : ¬ w.numGpus = 0) :
    init_dist b w st =
      Except.ok ({ st1 with boundDevice := some (r % (w.numGpus : Int)) },
        e1 ++ [Event.setDevice (r % (w.numGpus : Int)), Event.initProcessGroup b]) := by
  unfold init_dist
  simp only [hsm, henv, hp]
  rw [if_neg hg]

lemma init_dist_ok_elim (b : String) (w : World) (st st2 : PState) (evs : List Event)
    (h : init_dist b w st = Except.ok (st2, evs)) :
    ∃ st1 e1 rstr r,
      startMethodStep st = Except.ok (st1, e1) ∧ w.envRank = some rstr ∧
      pyParseInt rstr.toList = some r ∧ w.numGpus ≠ 0 ∧
      st2 = { st1 with boundDevice := some (r % (w.numGpus : Int)) } ∧
      evs = e1 ++ [Event.setDevice (r % (w.numGpus : Int)), Event.initProcessGroup b] := by
  cases hsm : startMethodStep st with
  | error e =>
    rw [init_dist_eq_sm_err b w st e hsm] at h
    exact Except.noConfusion h
  | ok p =>
    obtain ⟨st1, e1⟩ := p
    cases henv : w.envRank with
    | none =>
      rw [init_dist_eq_rank_missing b w st st1 e1 hsm henv] at h
      exact Except.noConfusion h
    | some rstr =>
      cases hp : pyParseInt rstr.toList with
      | none =>
        rw [init_dist_eq_rank_bad b w st st1 e1 rstr hsm henv hp] at h
        exact Except.noConfusion h
      | some r =>
        by_cases hg : w.numGpus = 0
        · rw [init_dist_eq_nogpu b w st st1 e1 rstr r hsm henv hp hg] at h
          exact Except.noConfusion h
        · rw [init_dist_eq_ok b w st st1 e1 rstr r hsm henv hp hg] at h
          injection h with h1
          injection h1 with h2 h3
          exact ⟨st1, e1, rstr, r, rfl, rfl, hp, hg, h2.symm, h3.symm⟩

lemma init_dist_phase (b : String) (w : World) (st st2 : PState) (evs : List Event)
    (h : init_dist b w st = Except.ok (st2, evs)) : ∀ e ∈ evs, phase e = 2 := by
  obtain ⟨st1, e1, rstr, r, hsm, -, -, -, -, hevs⟩ := init_dist_ok_elim b w st st2 evs h
  obtain ⟨h1, -⟩ := startMethodStep_ok st st1 e1 hsm
  subst hevs
  intro e he
  rcases List.mem_append.mp he with h2 | h2
  · rcases h1 with rfl | rfl
    · cases h2
    · simp at h2
      subst h2
      rfl
  · simp at h2
    rcases h2 with rfl | rfl <;> rfl

lemma init_dist_missing_rank (b : String) (w : World) (st : PState) (h : w.envRank = none) :
    (init_dist b w st).isOk = false := by
  cases hsm : startMethodStep st with
  | error e =>
    rw [init_dist_eq_sm_err b w st e hsm]
    rfl
  | ok p =>
    obtain ⟨st1, e1⟩ := p
    rw [init_dist_eq_rank_missing b w st st1 e1 hsm h]
    rfl

lemma distStep_eq_none (a : Args) (w : World) (st : PState) (hl : a.launcher = Launcher.none) :
    distStep a w st =
      Except.ok (false, -1, none, st, [Event.printMsg "Disabled distributed training."]) := by
  unfold distStep
  rw [hl]

lemma distStep_eq_pytorch_err (a : Args) (w : World) (st : PState) (e : Err)
    (hl : a.launcher = Launcher.pytorch) (hid : init_dist "nccl" w st = Except.error e) :
    distStep a w st = Except.error e := by
  unfold distStep
  rw [hl, hid]

lemma distStep_eq_pytorch_ok (a : Args) (w : World) (st std : PState) (evd : List Event)
    (hl : a.launcher = Launcher.pytorch) (hid : init_dist "nccl" w st = Except.ok (std, evd)) :
    distStep a w st =
      Except.ok (true, w.groupRank, some w.groupWorldSize, std,
        evd ++ [Event.printWorldSize w.groupWorldSize]) := by
  unfold distStep
  rw [hl, hid]

lemma distStep_ok_elim (a : Args) (w : World) (st st2 : PState) (d : Bool) (rk : Int)
    (ws : Option Nat) (ev2 : List Event)
    (h : distStep a w st = Except.ok (d, rk, ws, st2, ev2)) :
    (a.launcher = Launcher.none ∧ d = false ∧ rk = -1 ∧ ws = none ∧ st2 = st ∧
      ev2 = [Event.printMsg "Disabled distributed training."]) ∨
    (a.launcher = Launcher.pytorch ∧ d = true ∧ rk = w.groupRank ∧
      ws = some w.groupWorldSize ∧
      ∃ evd, init_dist "nccl" w st = Except.ok (st2, evd) ∧
        ev2 = evd ++ [Event.printWorldSize w.groupWorldSize]) := by
  cases hl : a.launcher with
  | none =>
    rw [distStep_eq_none a w st hl] at h
    injection h with h1
    injection h1 with hd h1
    injection h1 with hrk h1
    injection h1 with hws h1
    injection h1 with hst hev
    exact Or.inl ⟨rfl, hd.symm, hrk.symm, hws.symm, hst.symm, hev.symm⟩
  | pytorch =>
    cases hid : init_dist "nccl" w st with
    | error e =>
      rw [distStep_eq_pytorch_err a w st e hl hid] at h
      exact Except.noConfusion h
    | ok p =>
      obtain ⟨std, evd⟩ := p
      rw [distStep_eq_pytorch_ok a w st std evd hl hid] at h
      injection h with h1
      injection h1 with hd h1
      injection h1 with hrk h1
      injection h1 with hws h1
      injection h1 with hst hev
      subst hst
      exact Or.inr ⟨rfl, hd.symm, hrk.symm, hws.symm, evd, rfl, hev.symm⟩

lemma distStep_phase (a : Args) (w : World) (st st2 : PState) (d : Bool) (rk : Int)
    (ws : Option Nat) (ev2 : List Event)
    (h : distStep a w st = Except.ok (d, rk, ws, st2, ev2)) : ∀ e ∈ ev2, phase e = 2 := by
  rcases distStep_ok_elim a w st st2 d rk ws ev2 h with
    ⟨-, -, -, -, -, hev⟩ | ⟨-, -, -, -, evd, hid, hev⟩
  · subst hev
    intro e he
    simp at he
    subst he
    rfl
  · subst hev
    intro e he
    rcases List.mem_append.mp he with h2 | h2
    · exact init_dist_phase "nccl" w st st2 evd hid e h2
    · simp at h2
      subst h2
      rfl

lemma deviceBindStep_phase (gids : List Int) (st : PState) :
    ∀ e ∈ (deviceBindStep gids st).2, phase e = 2 := by
  cases gids with
  | nil => intro e he; cases he
  | cons g gs =>
    intro e he
    simp [deviceBindStep] at he
    subst he
    rfl

lemma runLayout_pos (rank : Int) (vis snap save log : String) (st : PState) (h : 0 < rank) :
    runLayout rank vis snap save log st = Except.ok (st, []) := by
  have hn : ¬ rank ≤ 0 := by omega
  simp [runLayout, hn]

lemma runLayout_eq_present (rank : Int) (vis snap save log : String) (st : PState)
    (hr : rank ≤ 0) (hv : fsContains st.fs vis = true) (hs : fsContains st.fs snap = true) :
    runLayout rank vis snap save log st =
      Except.ok ({ st with loggerFile := some log }, [Event.setupLogger log]) := by
  simp [runLayout, hr, hv, hs]

lemma runLayout_eq_mkdir (rank : Int) (vis snap save log : String) (st : PState)
    (hr : rank ≤ 0) (hv : fsContains st.fs vis = true) (hs : fsContains st.fs snap = false)
    (hw : fsContains st.fs save = true) :
    runLayout rank vis snap save log st =
      Except.ok ({ st with fs := snap :: st.fs, loggerFile := some log },
        [Event.mkdir snap, Event.setupLogger log]) := by
  simp [runLayout, hr, hv, hs, hw]

lemma runLayout_eq_mkdir_err (rank : Int) (vis snap save log : String) (st : PState)
    (hr : rank ≤ 0) (hv : fsContains st.fs vis = true) (hs : fsContains st.fs snap = false)
    (hw : fsContains st.fs save = false) :
    runLayout rank vis snap save log st = Except.error (Err.fileNotFoundError snap) := by
  simp [runLayout, hr, hv, hs, hw]

lemma runLayout_eq_mk_vis (rank : Int) (vis snap save log : String) (st : PState)
    (hr : rank ≤ 0) (hv : fsContains st.fs vis = false)
    (hs : fsContains (makedirsAdd st.fs vis) snap = true) :
    runLayout rank vis snap save log st =
      Except.ok ({ st with fs := makedirsAdd st.fs vis, loggerFile := some log },
        [Event.makedirs vis, Event.setupLogger log]) := by
  simp [runLayout, hr, hv, hs]

lemma runLayout_eq_mk_both (rank : Int) (vis snap save log : String) (st : PState)
    (hr : rank ≤ 0) (hv : fsContains st.fs vis = false)
    (hs : fsContains (makedirsAdd st.fs vis) snap = false)
    (hw : fsContains (makedirsAdd st.fs vis) save = true) :
    runLayout rank vis snap save log st =
      Except.ok ({ st with fs := snap :: makedirsAdd st.fs vis, loggerFile := some log },
        [Event.makedirs vis, Event.mkdir snap, Event.setupLogger log]) := by
  simp [runLayout, hr, hv, hs, hw]

lemma runLayout_eq_mk_err (rank : Int) (vis snap save log : String) (st : PState)
    (hr : rank ≤ 0) (hv : fsContains st.fs vis = false)
    (hs : fsContains (makedirsAdd st.fs vis) snap = false)
    (hw : fsContains (makedirsAdd st.fs vis) save = false) :
    runLayout rank vis snap save log st = Except.error (Err.fileNotFoundError snap) := by
  simp [runLayout, hr, hv, hs, hw]

lemma runLayout_coord_elim (rank : Int) (vis snap save log : String) (st st3 : PState)
    (ev3 : List Event) (hr : rank ≤ 0)
    (h : runLayout rank vis snap save log st = Except.ok (st3, ev3)) :
    st3.loggerFile = some log ∧ st3.boundDevice = st.boundDevice ∧
      st3.startMethod = st.startMethod ∧
      fsContains st3.fs vis = true ∧ fsContains st3.fs snap = true ∧
      ∀ e ∈ ev3, phase e = 3 := by
  by_cases hv : fsContains st.fs vis = true
  · by_cases hs : fsContains st.fs snap = true
    · rw [runLayout_eq_present rank vis snap save log st hr hv hs] at h
      injection h with h1
      injection h1 with h2 h3
      subst h2; subst h3
      refine ⟨rfl, rfl, rfl, hv, hs, ?_⟩
      intro e he
      simp at he
      subst he
      rfl
    · rw [Bool.not_eq_true] at hs
      by_cases hw : fsContains st.fs save = true
      · rw [runLayout_eq_mkdir rank vis snap save log st hr hv hs hw] at h
        injection h with h1
        injection h1 with h2 h3
        subst h2; subst h3
        refine ⟨rfl, rfl, rfl, fsContains_cons_of _ _ _ hv, fsContains_cons_self _ _, ?_⟩
        intro e he
        simp at he
        rcases he with rfl | rfl <;> rfl
      · rw [Bool.not_eq_true] at hw
        rw [runLayout_eq_mkdir_err rank vis snap save log st hr hv hs hw] at h
        exact Except.noConfusion h
  · rw [Bool.not_eq_true] at hv
    by_cases hs : fsContains (makedirsAdd st.fs vis) snap = true
    · rw [runLayout_eq_mk_vis rank vis snap save log st hr hv hs] at h
      injection h with h1
      injection h1 with h2 h3
      subst h2; subst h3
      refine ⟨rfl, rfl, rfl, fsContains_cons_self _ _, hs, ?_⟩
      intro e he
      simp at he
      rcases he with rfl | rfl <;> rfl
    · rw [Bool.not_eq_true] at hs
      by_cases hw : fsContains (makedirsAdd st.fs vis) save = true
      · rw [runLayout_eq_mk_both rank vis snap save log st hr hv hs hw] at h
        injection h with h1
        injection h1 with h2 h3
        subst h2; subst h3
        refine ⟨rfl, rfl, rfl,
          fsContains_cons_of _ _ _ (fsContains_cons_self _ _), fsContains_cons_self _ _, ?_⟩
        intro e he
        simp at he
        rcases he with rfl | rfl | rfl <;> rfl
      · rw [Bool.not_eq_true] at hw
        rw [runLayout_eq_mk_err rank vis snap save log st hr hv hs hw] at h
        exact Except.noConfusion h

lemma runLayout_phase (rank : Int) (vis snap save log : String) (st st3 : PState)
    (ev3 : List Event) (h : runLayout rank vis snap save log st = Except.ok (st3, ev3)) :
    ∀ e ∈ ev3, phase e = 3 := by
  rcases le_or_lt rank 0 with hr | hr
  · exact (runLayout_coord_elim rank vis snap save log st st3 ev3 hr h).2.2.2.2.2
  · rw [runLayout_pos rank vis snap save log st hr] at h
    injection h with h1
    injection h1 with h2 h3
    subst h3
    intro e he
    cases he

lemma pairwise_phase_append (c : Nat) (l1 l2 : List Event)
    (h1 : l1.Pairwise phaseLE) (h2 : l2.Pairwise phaseLE)
    (hb1 : ∀ e ∈ l1, phase e ≤ c) (hb2 : ∀ e ∈ l2, c ≤ phase e) :
    (l1 ++ l2).Pairwise phaseLE :=
  List.pairwise_append.mpr
    ⟨h1, h2, fun x hx y hy => Nat.le_trans (hb1 x hx) (hb2 y hy)⟩

lemma pairwise_phase_const (l : List Event) (c : Nat) (h : ∀ e ∈ l, phase e = c) :
    l.Pairwise phaseLE := by
  induction l with
  | nil => exact List.Pairwise.nil
  | cons x xs ih =>
    refine List.Pairwise.cons (fun y hy => ?_) (ih fun e he => h e (List.mem_cons_of_mem _ he))
    show phase x ≤ phase y
    rw [h x (List.mem_cons_self _ _), h y (List.mem_cons_of_mem _ hy)]

lemma phases_assemble (s : Int) (ev1 ev2 ev3 : List Event)
    (h1 : ∀ e ∈ ev1, phase e = 2) (h2 : ∀ e ∈ ev2, phase e = 2)
    (h3 : ∀ e ∈ ev3, phase e = 3) :
    ((Event.parseArgs :: set_random_seed s) ++ ev1 ++ ev2 ++ ev3 ++
      [Event.printArgs, Event.cudnnBenchmark, Event.trainerTrain]).Pairwise phaseLE := by
  have htail : ([Event.printArgs, Event.cudnnBenchmark, Event.trainerTrain] :
      List Event).Pairwise phaseLE := by
    decide
  have htailLB : ∀ e ∈ ([Event.printArgs, Event.cudnnBenchmark, Event.trainerTrain] :
      List Event), 3 ≤ phase e := by
    decide
  have p34 : (ev3 ++ [Event.printArgs, Event.cudnnBenchmark, Event.trainerTrain]).Pairwise
      phaseLE := by
    refine pairwise_phase_append 3 _ _ (pairwise_phase_const ev3 3 h3) htail ?_ htailLB
    intro e he
    rw [h3 e he]
  have p34LB : ∀ e ∈ ev3 ++ [Event.printArgs, Event.cudnnBenchmark, Event.trainerTrain],
      2 ≤ phase e := by
    intro e he
    rcases List.mem_append.mp he with he | he
    · rw [h3 e he]
      omega
    · exact Nat.le_trans (by omega) (htailLB e he)
  have p234 : (ev2 ++ (ev3 ++ [Event.printArgs, Event.cudnnBenchmark,
      Event.trainerTrain])).Pairwise phaseLE := by
    refine pairwise_phase_append 2 _ _ (pairwise_phase_const ev2 2 h2) p34 ?_ p34LB
    intro e he
    rw [h2 e he]
  have p234LB : ∀ e ∈ ev2 ++ (ev3 ++ [Event.printArgs, Event.cudnnBenchmark,
      Event.trainerTrain]), 2 ≤ phase e := by
    intro e he
    rcases List.mem_append.mp he with he | he
    · rw [h2 e he]
    · exact p34LB e he
  have p1234 : (ev1 ++ (ev2 ++ (ev3 ++ [Event.printArgs, Event.cudnnBenchmark,
      Event.trainerTrain]))).Pairwise phaseLE := by
    refine pairwise_phase_append 2 _ _ (pairwise_phase_const ev1 2 h1) p234 ?_ p234LB
    intro e he
    rw [h1 e he]
  have p1234LB : ∀ e ∈ ev1 ++ (ev2 ++ (ev3 ++ [Event.printArgs, Event.cudnnBenchmark,
      Event.trainerTrain])), 2 ≤ phase e := by
    intro e he
    rcases List.mem_append.mp he with he | he
    · rw [h1 e he]
    · exact p234LB e he
  have phead : ((Event.parseArgs :: set_random_seed s) : List Event).Pairwise phaseLE := by
    unfold set_random_seed
    refine List.Pairwise.cons ?_ (List.pairwise_singleton _ _)
    intro y hy
    simp at hy
    subst hy
    exact Nat.zero_le 1
  have pheadUB : ∀ e ∈ (Event.parseArgs :: set_random_seed s), phase e ≤ 2 := by
    intro e he
    simp [set_random_seed] at he
    rcases he with rfl | rfl
    · show (0 : Nat) ≤ 2
      omega
    · show (1 : Nat) ≤ 2
      omega
  have := pairwise_phase_append 2 (Event.parseArgs :: set_random_seed s)
    (ev1 ++ (ev2 ++ (ev3 ++ [Event.printArgs, Event.cudnnBenchmark, Event.trainerTrain])))
    phead p1234 pheadUB p1234LB
  simpa [List.append_assoc] using this

lemma main_ok_elim (a : Args) (w : World) (out : MainOut) (h : main a w = Except.ok out) :
    ∃ gids d rk ws st2 ev2 st3 ev3,
      parseGpuIds a.gpu_ids = some gids ∧
      distStep a w (deviceBindStep gids (initialState w)).1 =
        Except.ok (d, rk, ws, st2, ev2) ∧
      runLayout rk (pathJoin (pathJoin a.save_folder a.name) "vis")
        (pathJoin (pathJoin a.save_folder a.name) "snapshot")
        (pathJoin a.save_folder a.name)
        (pathJoin a.save_folder a.name ++ "/" ++ w.timestamp ++ ".log") st2 =
        Except.ok (st3, ev3) ∧
      out = { dist := d, rank := rk, world_size := ws, gpu_ids := gids,
              save_folder := pathJoin a.save_folder a.name,
              vis_save_dir := pathJoin (pathJoin a.save_folder a.name) "vis",
              snapshot_save_dir := pathJoin (pathJoin a.save_folder a.name) "snapshot",
              log_file_path := pathJoin a.save_folder a.name ++ "/" ++ w.timestamp ++ ".log",
              st := st3,
              events := (Event.parseArgs :: set_random_seed a.random_seed) ++
                (deviceBindStep gids (initialState w)).2 ++ ev2 ++ ev3 ++
                [Event.printArgs, Event.cudnnBenchmark, Event.trainerTrain] } := by
  unfold main at h
  cases hg : parseGpuIds a.gpu_ids with
  | none =>
    rw [hg] at h
    exact Except.noConfusion h
  | some gids =>
    rw [hg] at h
    cases hd : distStep a w (deviceBindStep gids (initialState w)).1 with
    | error e =>
      simp only [hd] at h
      exact Except.noConfusion h
    | ok q =>
      obtain ⟨d, rk, ws, st2, ev2⟩ := q
      simp only [hd] at h
      cases hl : runLayout rk (pathJoin (pathJoin a.save_folder a.name) "vis")
          (pathJoin (pathJoin a.save_folder a.name) "snapshot")
          (pathJoin a.save_folder a.name)
          (pathJoin a.save_folder a.name ++ "/" ++ w.timestamp ++ ".log") st2 with
      | error e =>
        simp only [hl] at h
        exact Except.noConfusion h
      | ok q3 =>
        obtain ⟨st3, ev3⟩ := q3
        simp only [hl] at h
        injection h with h1
        exact ⟨gids, d, rk, ws, st2, ev2, st3, ev3, rfl, hd, hl, h1.symm⟩

lemma main_phases (a : Args) (w : World) (out : MainOut) (h : main a w = Except.ok out) :
    out.events.Pairwise phaseLE := by
  obtain ⟨gids, d, rk, ws, st2, ev2, st3, ev3, -, hd, hl, hout⟩ := main_ok_elim a w out h
  subst hout
  exact phases_assemble a.random_seed _ ev2 ev3
    (deviceBindStep_phase gids (initialState w))
    (distStep_phase a w _ st2 d rk ws ev2 hd)
    (runLayout_phase rk _ _ _ _ st2 st3 ev3 hl)

lemma allBefore_of_pairwise (p q : Event → Bool) (ap aq : Nat) (hlt : ap < aq)
    (hp : ∀ e, p e = true → phase e = ap) (hq : ∀ e, q e = true → phase e = aq) :
    ∀ t : List Event, t.Pairwise phaseLE → allBefore p q t = true := by
  intro t
  induction t with
  | nil => intro _; rfl
  | cons e ts ih =>
    intro ht
    obtain ⟨he, hts⟩ := List.pairwise_cons.mp ht
    have hrest := ih hts
    unfold allBefore
    rw [hrest, Bool.and_true]
    by_cases hqe : q e = true
    · have hpe : p e = false := by
        rw [← Bool.not_eq_true]
        intro hc
        have := hp e hc
        have := hq e hqe
        omega
      have hall : ts.all (fun x => !p x) = true := by
        rw [List.all_eq_true]
        intro x hx
        rw [Bool.not_eq_true']
        rw [← Bool.not_eq_true]
        intro hc
        have h1 := hp x hc
        have h2 := hq e hqe
        have h3 : phase e ≤ phase x := he x hx
        omega
      rw [hqe, hpe, hall]
      rfl
    · rw [Bool.not_eq_true] at hqe
      rw [hqe]
      rfl

lemma isResolveEv_phase : ∀ e, isResolveEv e = true → phase e = 0 := by
  intro e he
  cases e <;> simp [isResolveEv, phase] at he ⊢

lemma isSeedEv_phase : ∀ e, isSeedEv e = true → phase e = 1 := by
  intro e he
  cases e <;> simp [isSeedEv, phase] at he ⊢

lemma isDeviceEv_phase : ∀ e, isDeviceEv e = true → phase e = 2 := by
  intro e he
  cases e <;> simp [isDeviceEv, phase] at he ⊢

lemma isLayoutEv_phase : ∀ e, isLayoutEv e = true → phase e = 3 := by
  intro e he
  cases e <;> simp [isLayoutEv, phase] at he ⊢

lemma isDriverEv_phase : ∀ e, isDriverEv e = true → phase e = 5 := by
  intro e he
  cases e <;> simp [isDriverEv, phase] at he ⊢

/-- The resolved output of `main args0 world0`. -/
def out0 : MainOut :=
  { dist := false, rank := -1, world_size := none, gpu_ids := [0],
    save_folder := "w/n", vis_save_dir := "w/n/vis", snapshot_save_dir := "w/n/snapshot",
    log_file_path := "w/n/t.log",
    st := { startMethod := none, boundDevice := some 0,
            fs := ["w/n/snapshot", "w/n/vis", "w", "w/n", "w/n/vis"],
            loggerFile := some "w/n/t.log" },
    events := [Event.parseArgs, Event.seed 0, Event.setDevice 0,
               Event.printMsg "Disabled distributed training.", Event.makedirs "w/n/vis",
               Event.mkdir "w/n/snapshot", Event.setupLogger "w/n/t.log", Event.printArgs,
               Event.cudnnBenchmark, Event.trainerTrain] }

/-- `args0` with the CPU-only device string `-1`. -/
def argsM1 : Args :=
  { args0 with gpu_ids := "-1" }

/-- The resolved output of `main argsM1 world0`. -/
def outM1 : MainOut :=
  { dist := false, rank := -1, world_size := none, gpu_ids := [],
    save_folder := "w/n", vis_save_dir := "w/n/vis", snapshot_save_dir := "w/n/snapshot",
    log_file_path := "w/n/t.log",
    st := { startMethod := none, boundDevice := none,
            fs := ["w/n/snapshot", "w/n/vis", "w", "w/n", "w/n/vis"],
            loggerFile := some "w/n/t.log" },
    events := [Event.parseArgs, Event.seed 0,
               Event.printMsg "Disabled distributed training.", Event.makedirs "w/n/vis",
               Event.mkdir "w/n/snapshot", Event.setupLogger "w/n/t.log", Event.printArgs,
               Event.cudnnBenchmark, Event.trainerTrain] }

/-- `args0` with the two-device string `0,2`. -/
def args02 : Args :=
  { args0 with gpu_ids := "0,2" }

/-- The resolved output of `main args02 world0`. -/
def out02 : MainOut :=
  { dist := false, rank := -1, world_size := none, gpu_ids := [0, 2],
    save_folder := "w/n", vis_save_dir := "w/n/vis", snapshot_save_dir := "w/n/snapshot",
    log_file_path := "w/n/t.log",
    st := { startMethod := none, boundDevice := some 0,
            fs := ["w/n/snapshot", "w/n/vis", "w", "w/n", "w/n/vis"],
            loggerFile := some "w/n/t.log" },
    events := [Event.parseArgs, Event.seed 0, Event.setDevice 0,
               Event.printMsg "Disabled distributed training.", Event.makedirs "w/n/vis",
               Event.mkdir "w/n/snapshot", Event.setupLogger "w/n/t.log", Event.printArgs,
               Event.cudnnBenchmark, Event.trainerTrain] }

/-- `args0` with the multi-process launcher. -/
def argsPT : Args :=
  { args0 with launcher := Launcher.pytorch }

/-- `world0` with no `RANK` value in the environment. -/
def worldNoRank : World :=
  { world0 with envRank := none }

/-- `args0` with an empty device string. -/
def argsEmptyG : Args :=
  { args0 with gpu_ids := "" }

/-- State after `init_dist "nccl" world0 (initialState world0)`. -/
def distStC2 : PState :=
  { startMethod := some "spawn", boundDevice := some 1, fs := [], loggerFile := none }

/-- Events of `init_dist "nccl" world0 (initialState world0)`. -/
def distEvC2 : List Event :=
  [Event.setStartMethod "spawn", Event.setDevice 1, Event.initProcessGroup "nccl"]

/-- A state whose start method was already set to an incompatible mode. -/
def stForkC9 : PState :=
  { startMethod := some "fork", boundDevice := none, fs := [], loggerFile := none }

/-- A state whose start method is already `spawn`. -/
def stSpawnC9 : PState :=
  { startMethod := some "spawn", boundDevice := none, fs := [], loggerFile := none }

/-- State after `init_dist "nccl" world0 stSpawnC9`. -/
def stSpawnC9r : PState :=
  { startMethod := some "spawn", boundDevice := some 1, fs := [], loggerFile := none }

/-- Events of `init_dist "nccl" world0 stSpawnC9`. -/
def evsSpawnC9 : List Event :=
  [Event.setDevice 1, Event.initProcessGroup "nccl"]

/-- A state in which both layout directories already exist. -/
def stC8 : PState :=
  { startMethod := none, boundDevice := none, fs := ["v", "s"], loggerFile := none }

/-- C1, counterexample: on the concrete single-process run `main args0 world0`,
which completes successfully, the trace does not satisfy the spec's order
"seeding before configuration resolution before device setup before layout
before driver": `parser.parse_args()` runs before `set_random_seed`. -/
theorem C1_counterexample :
    (main args0 world0).isOk = true ∧ claimC1Order (eventsOf (main args0 world0)) = false := by
  decide

/-- C1, amended: within a single process the steps execute strictly in the
order configuration resolution, then seeding, then device/distribution setup,
then layout creation, then driver invocation (the spec's order of the first
two steps is swapped: the seed is itself a parsed option, so parsing must
come first). -/
theorem C1_amended_order (a : Args) (w : World) (out : MainOut)
    (h : main a w = Except.ok out) : amendedC1Order out.events = true := by
  have hp := main_phases a w out h
  unfold amendedC1Order
  rw [allBefore_of_pairwise isResolveEv isSeedEv 0 1 (by omega) isResolveEv_phase
        isSeedEv_phase out.events hp,
      allBefore_of_pairwise isSeedEv isDeviceEv 1 2 (by omega) isSeedEv_phase
        isDeviceEv_phase out.events hp,
      allBefore_of_pairwise isDeviceEv isLayoutEv 2 3 (by omega) isDeviceEv_phase
        isLayoutEv_phase out.events hp,
      allBefore_of_pairwise isLayoutEv isDriverEv 3 5 (by omega) isLayoutEv_phase
        isDriverEv_phase out.events hp]
  rfl

/-- C1, witness: the amended order holds on the concrete run `main args0 world0`. -/
theorem C1_amended_order_witness : amendedC1Order out0.events = true :=
  C1_amended_order args0 world0 out0 (by decide)

/-- C2: in multi-process mode, for every launcher-supplied rank `r` (the
parsed `RANK` environment value) and every node with `G > 0` visible devices,
`init_dist` binds the process's device to `r mod G`. -/
theorem C2_device_binding (b : String) (w : World) (st st2 : PState) (evs : List Event)
    (rstr : String) (r : Int) (henv : w.envRank = some rstr)
    (hr : pyParseInt rstr.toList = some r) (_hpos : 0 < w.numGpus)
    (h : init_dist b w st = Except.ok (st2, evs)) :
    st2.boundDevice = some (r % (w.numGpus : Int)) ∧
      Event.setDevice (r % (w.numGpus : Int)) ∈ evs := by
  obtain ⟨st1, e1, rstr2, r2, hsm, henv2, hr2, -, hst2, hevs⟩ :=
    init_dist_ok_elim b w st st2 evs h
  rw [henv] at henv2
  injection henv2 with hx
  subst hx
  rw [hr] at hr2
  injection hr2 with hy
  subst hy
  subst hst2
  subst hevs
  exact ⟨rfl, List.mem_append.mpr (Or.inr (by simp))⟩

/-- C2, witness: with `RANK=3` and 2 visible devices, the bound device is
`3 mod 2 = 1`. -/
theorem C2_device_binding_witness :
    distStC2.boundDevice = some ((3 : Int) % ((2 : Nat) : Int)) ∧
      Event.setDevice ((3 : Int) % ((2 : Nat) : Int)) ∈ distEvC2 :=
  C2_device_binding "nccl" world0 (initialState world0) distStC2 distEvC2 "3" 3 rfl
    (by decide) (by decide) (by decide)

/-- C3: for rank strictly greater than 0, the Run Layout Manager creates no
directory, touches no state and does not initialize the log sink, even when
the target directories do not exist. -/
theorem C3_noncoordinating_rank_noop (rank : Int) (vis snap save log : String) (st : PState)
    (h : 0 < rank) : runLayout rank vis snap save log st = Except.ok (st, []) :=
  runLayout_pos rank vis snap save log st h

/-- C3, witness: rank 1 on an empty filesystem is a strict no-op. -/
theorem C3_noncoordinating_rank_noop_witness :
    runLayout 1 "v" "s" "w" "l" (initialState world0) =
      Except.ok (initialState world0, []) :=
  C3_noncoordinating_rank_noop 1 "v" "s" "w" "l" (initialState world0) (by decide)

/-- C4: for launcher mode `none`, every successful run has `dist = false` and
`rank = -1`, and the Run Layout Manager acts as the coordinating process: the
log sink is initialized and both output directories exist afterwards. -/
theorem C4_launcher_none (a : Args) (w : World) (out : MainOut)
    (hl : a.launcher = Launcher.none) (h : main a w = Except.ok out) :
    out.dist = false ∧ out.rank = -1 ∧ out.st.loggerFile = some out.log_file_path ∧
      fsContains out.st.fs out.vis_save_dir = true ∧
      fsContains out.st.fs out.snapshot_save_dir = true := by
  obtain ⟨gids, d, rk, ws, st2, ev2, st3, ev3, -, hd, hlay, hout⟩ := main_ok_elim a w out h
  rcases distStep_ok_elim a w _ st2 d rk ws ev2 hd with
    ⟨-, hdf, hrk, -, -, -⟩ | ⟨hpy, -, -, -, -⟩
  · subst hout
    have hr0 : rk ≤ 0 := by omega
    obtain ⟨hlog, -, -, hvis, hsnap, -⟩ :=
      runLayout_coord_elim rk _ _ _ _ st2 st3 ev3 hr0 hlay
    exact ⟨hdf, hrk, hlog, hvis, hsnap⟩
  · rw [hl] at hpy
    exact Launcher.noConfusion hpy

/-- C4, witness: the concrete single-process run `main args0 world0`. -/
theorem C4_launcher_none_witness :
    out0.dist = false ∧ out0.rank = -1 ∧ out0.st.loggerFile = some out0.log_file_path ∧
      fsContains out0.st.fs out0.vis_save_dir = true ∧
      fsContains out0.st.fs out0.snapshot_save_dir = true :=
  C4_launcher_none args0 world0 out0 rfl (by decide)

/-- C5, counterexample: for the empty device-id string the claim fails:
`''.split(',')` yields `['']` and `int('')` raises `ValueError`, so parsing
produces an error (not an empty list) and `main` aborts. -/
theorem C5_counterexample :
    parseGpuIds "" = none ∧ ¬ parseGpuIds "" = some [] ∧
      (main argsEmptyG world0).isOk = false := by
  decide

/-- C5, amended: for the device-id string `-1` the parsed device list is
empty and no default compute device is bound; for the empty device-id string
`int('')` raises `ValueError`, so the parse fails and the run aborts with an
error instead of entering CPU-only mode. -/
theorem C5_amended_cpu_only :
    parseGpuIds "-1" = some [] ∧
    (∀ (a : Args) (w : World) (out : MainOut), a.gpu_ids = "-1" →
      a.launcher = Launcher.none → main a w = Except.ok out →
      out.gpu_ids = [] ∧ out.st.boundDevice = none) ∧
    (∀ (a : Args) (w : World), a.gpu_ids = "" → (main a w).isOk = false) := by
  refine ⟨by decide, ?_, ?_⟩
  · intro a w out hg hl h
    obtain ⟨gids, d, rk, ws, st2, ev2, st3, ev3, hpg, hd, hlay, hout⟩ := main_ok_elim a w out h
    rw [hg, show parseGpuIds "-1" = some [] from by decide] at hpg
    injection hpg with hgids
    subst hgids
    rcases distStep_ok_elim a w _ st2 d rk ws ev2 hd with
      ⟨-, -, hrk, -, hst2, -⟩ | ⟨hpy, -, -, -, -⟩
    · have hr0 : rk ≤ 0 := by omega
      have hbd := (runLayout_coord_elim rk _ _ _ _ st2 st3 ev3 hr0 hlay).2.1
      rw [hout]
      refine ⟨rfl, ?_⟩
      show st3.boundDevice = none
      rw [hbd, hst2]
      rfl
    · rw [hl] at hpy
      exact Launcher.noConfusion hpy
  · intro a w hg
    unfold main
    rw [hg, show parseGpuIds "" = none from by decide]
    rfl

/-- C5, witness: the concrete run with device string `-1`. -/
theorem C5_amended_cpu_only_witness : outM1.gpu_ids = [] ∧ outM1.st.boundDevice = none :=
  C5_amended_cpu_only.2.1 argsM1 world0 outM1 rfl rfl (by decide)

/-- C6: for the device-id string `0,2`, the parsed device list is `[0, 2]` in
that order and the device-binding step binds device 0 (the third trace event
is `setDevice 0`); in single-process mode the process's bound default device
is still 0 at hand-off. -/
theorem C6_gpu_ids_02 (a : Args) (w : World) (out : MainOut) (hg : a.gpu_ids = "0,2")
    (h : main a w = Except.ok out) :
    out.gpu_ids = [0, 2] ∧ nthEvent out.events 2 = some (Event.setDevice 0) ∧
      (a.launcher = Launcher.none → out.st.boundDevice = some 0) := by
  obtain ⟨gids, d, rk, ws, st2, ev2, st3, ev3, hpg, hd, hlay, hout⟩ := main_ok_elim a w out h
  rw [hg, show parseGpuIds "0,2" = some [0, 2] from by decide] at hpg
  injection hpg with hgids
  subst hgids
  subst hout
  refine ⟨rfl, rfl, ?_⟩
  intro hl
  rcases distStep_ok_elim a w _ st2 d rk ws ev2 hd with
    ⟨-, -, hrk, -, hst2, -⟩ | ⟨hpy, -, -, -, -⟩
  · have hr0 : rk ≤ 0 := by omega
    have hbd := (runLayout_coord_elim rk _ _ _ _ st2 st3 ev3 hr0 hlay).2.1
    show st3.boundDevice = some 0
    rw [hbd, hst2]
    rfl
  · rw [hl] at hpy
    exact Launcher.noConfusion hpy

/-- C6, witness: the concrete run `main args02 world0`. -/
theorem C6_gpu_ids_02_witness :
    out02.gpu_ids = [0, 2] ∧ nthEvent out02.events 2 = some (Event.setDevice 0) ∧
      (args02.launcher = Launcher.none → out02.st.boundDevice = some 0) :=
  C6_gpu_ids_02 args02 world0 out02 rfl (by decide)

/-- C7: in multi-process mode, a missing `RANK` environment value is fatal:
`main` terminates with an error and is never downgraded to a successful
single-process run. -/
theorem C7_missing_rank_fatal (a : Args) (w : World) (hl : a.launcher = Launcher.pytorch)
    (henv : w.envRank = none) : (main a w).isOk = false := by
  cases hg : parseGpuIds a.gpu_ids with
  | none =>
    unfold main
    rw [hg]
    rfl
  | some gids =>
    cases hid : init_dist "nccl" w (deviceBindStep gids (initialState w)).1 with
    | error e =>
      unfold main
      simp only [hg, distStep_eq_pytorch_err a w _ e hl hid]
      rfl
    | ok p =>
      have hko := init_dist_missing_rank "nccl" w (deviceBindStep gids (initialState w)).1 henv
      rw [hid] at hko
      simp [Except.isOk, Except.toBool] at hko

/-- C7, witness: pytorch launcher with `RANK` unset aborts. -/
theorem C7_missing_rank_fatal_witness : (main argsPT worldNoRank).isOk = false :=
  C7_missing_rank_fatal argsPT worldNoRank rfl rfl

/-- C8: for rank at most 0 with both target directories already present, the
Run Layout Manager performs no directory creation and raises no error, and
invoking it a second time from the resulting state is byte-for-byte the same
no-creation call (idempotence). -/
theorem C8_layout_idempotent (rank : Int) (vis snap save log : String) (st : PState)
    (hr : rank ≤ 0) (hv : fsContains st.fs vis = true) (hs : fsContains st.fs snap = true) :
    runLayout rank vis snap save log st =
      Except.ok ({ st with loggerFile := some log }, [Event.setupLogger log]) ∧
    runLayout rank vis snap save log { st with loggerFile := some log } =
      Except.ok ({ st with loggerFile := some log }, [Event.setupLogger log]) ∧
    ([Event.setupLogger log] : List Event).countP isCreateEv = 0 := by
  refine ⟨runLayout_eq_present rank vis snap save log st hr hv hs, ?_, ?_⟩
  · exact runLayout_eq_present rank vis snap save log { st with loggerFile := some log } hr hv hs
  · simp [List.countP_cons, isCreateEv]

/-- C8, witness: rank 0 with directories `v` and `s` already present. -/
theorem C8_layout_idempotent_witness :
    runLayout 0 "v" "s" "w" "l" stC8 =
      Except.ok ({ stC8 with loggerFile := some "l" }, [Event.setupLogger "l"]) ∧
    runLayout 0 "v" "s" "w" "l" { stC8 with loggerFile := some "l" } =
      Except.ok ({ stC8 with loggerFile := some "l" }, [Event.setupLogger "l"]) ∧
    ([Event.setupLogger "l"] : List Event).countP isCreateEv = 0 :=
  C8_layout_idempotent 0 "v" "s" "w" "l" stC8 (by decide) (by decide) (by decide)

/-- C9: the spawn start method is configured at most once per `init_dist`
invocation; when the start method is already `spawn` the configuration step
is a no-op, when it is unset it is set exactly once, and when it was already
set to an incompatible mode `init_dist` fails with a `RuntimeError`. -/
theorem C9_spawn_mode_once :
    (∀ (b : String) (w : World) (st st2 : PState) (evs : List Event),
        init_dist b w st = Except.ok (st2, evs) →
        evs.countP isSetStartMethodEv ≤ 1 ∧ st2.startMethod = some "spawn") ∧
    (∀ (b : String) (w : World) (st st2 : PState) (evs : List Event),
        st.startMethod = some "spawn" → init_dist b w st = Except.ok (st2, evs) →
        evs.countP isSetStartMethodEv = 0) ∧
    (∀ (b : String) (w : World) (st st2 : PState) (evs : List Event),
        st.startMethod = none → init_dist b w st = Except.ok (st2, evs) →
        evs.countP isSetStartMethodEv = 1) ∧
    (∀ (b : String) (w : World) (st : PState) (m : String),
        st.startMethod = some m → m ≠ "spawn" →
        init_dist b w st = Except.error (Err.runtimeError "context has already been set")) := by
  refine ⟨?_, ?_, ?_, ?_⟩
  · intro b w st st2 evs h
    obtain ⟨st1, e1, rstr, r, hsm, -, -, -, hst2, hevs⟩ := init_dist_ok_elim b w st st2 evs h
    obtain ⟨he1, hsp, -⟩ := startMethodStep_ok st st1 e1 hsm
    subst hevs
    subst hst2
    refine ⟨?_, hsp⟩
    rcases he1 with rfl | rfl <;>
      simp [List.countP_append, List.countP_cons, isSetStartMethodEv]
  · intro b w st st2 evs hsp h
    obtain ⟨st1, e1, rstr, r, hsm, -, -, -, -, hevs⟩ := init_dist_ok_elim b w st st2 evs h
    rw [startMethodStep_spawn st hsp] at hsm
    injection hsm with hx
    injection hx with hy hz
    subst hevs
    rw [← hz]
    simp [List.countP_cons, isSetStartMethodEv]
  · intro b w st st2 evs hun h
    obtain ⟨st1, e1, rstr, r, hsm, -, -, -, -, hevs⟩ := init_dist_ok_elim b w st st2 evs h
    rw [startMethodStep_unset st hun] at hsm
    injection hsm with hx
    injection hx with hy hz
    subst hevs
    rw [← hz]
    simp [List.countP_append, List.countP_cons, isSetStartMethodEv]
  · intro b w st m hm hne
    exact init_dist_eq_sm_err b w st _ (startMethodStep_mismatch st m hm hne)

/-- C9, witness: an already-`spawn` state yields no configuration event, and
a `fork` state makes `init_dist` fail. -/
theorem C9_spawn_mode_once_witness :
    evsSpawnC9.countP isSetStartMethodEv = 0 ∧
      init_dist "nccl" world0 stForkC9 =
        Except.error (Err.runtimeError "context has already been set") :=
  ⟨C9_spawn_mode_once.2.1 "nccl" world0 stSpawnC9 stSpawnC9r evsSpawnC9 rfl (by decide),
   C9_spawn_mode_once.2.2.2 "nccl" world0 stForkC9 "fork" rfl (by decide)⟩

/-- C10: the device-id loop silently drops every negative token: whenever all
comma-separated tokens parse as integers, the resulting list is exactly the
non-negative ones in their original order, and for the mixed string `0,-1,2`
the parsed list is `[0, 2]` with device 0 bound by the binding step. -/
theorem C10_negative_ids_dropped :
    (∀ (toks : List (List Char)) (ints : List Int),
        toks.mapM pyParseInt = some ints →
        parseGpuIdsAux toks = some (ints.filter (fun i => decide (0 ≤ i)))) ∧
    parseGpuIds "0,-1,2" = some [0, 2] ∧
    (∀ (a : Args) (w : World) (out : MainOut), a.gpu_ids = "0,-1,2" →
        main a w = Except.ok out →
        out.gpu_ids = [0, 2] ∧ nthEvent out.events 2 = some (Event.setDevice 0)) := by
  refine ⟨?_, by decide, ?_⟩
  · intro toks
    induction toks with
    | nil =>
      intro ints h
      simp only [List.mapM_nil, pure, Option.some.injEq] at h
      subst h
      rfl
    | cons t ts ih =>
      intro ints h
      rw [List.mapM_cons] at h
      cases hp : pyParseInt t with
      | none => rw [hp] at h; simp at h
      | some i =>
        rw [hp] at h
        cases hm : ts.mapM pyParseInt with
        | none => rw [hm] at h; simp at h
        | some rest =>
          rw [hm] at h
          simp at h
          subst h
          unfold parseGpuIdsAux
          simp only [hp, ih rest hm]
          by_cases hi : (0 : Int) ≤ i
          · rw [if_pos hi]
            simp [List.filter_cons, hi]
          · rw [if_neg hi]
            simp [List.filter_cons, hi]
  · intro a w out hg h
    obtain ⟨gids, d, rk, ws, st2, ev2, st3, ev3, hpg, hd, hlay, hout⟩ := main_ok_elim a w out h
    rw [hg, show parseGpuIds "0,-1,2" = some [0, 2] from by decide] at hpg
    injection hpg with hgids
    subst hgids
    subst hout
    exact ⟨rfl, rfl⟩

/-- C10, witness: the general filter law instantiated on the tokens of
`0,-1,2`. -/
theorem C10_negative_ids_dropped_witness :
    parseGpuIdsAux (splitChar ',' ("0,-1,2".toList)) =
      some (([0, -1, 2] : List Int).filter (fun i => decide (0 ≤ i))) :=
  C10_negative_ids_dropped.1 (splitChar ',' ("0,-1,2".toList)) [0, -1, 2] (by decide)

end TrainPy
